import Mathlib

/-!
Verification of the quiz-practice backend (EduTheo).

Shallow embedding of the backend's data model and of the operations the
claims concern, translated from the Python source:
  backend/app/crud/question.py, backend/app/crud/analytics.py,
  backend/app/ai/service.py, backend/app/api/questions.py,
  backend/app/schemas/schemas.py, backend/app/models/models.py.

The SQLAlchemy database is modelled as Lean lists of rows; chained
`query.filter(...)` calls become conjunctions of Boolean predicates;
Python `Optional` columns become `Option`; `datetime` values become `Nat`
timestamps (seconds), with the calendar day of a timestamp `t` taken as
`t / 86400`; float arithmetic on percentages is modelled over `ℚ`, with
Python's `round(x, n)` modelled as rounding to `n` decimal places.
-/

/-- Truthiness of a Python `Optional[List[...]]` value: `None` and the
empty list are falsy, a non-empty list is truthy. -/
def truthyList : Option (List α) → Bool
  | none => false
  | some l => !l.isEmpty

/-- Python dict lookup `d[k]` / membership `k in d`, for the JSON-object
columns (`options`, `explanations`) modelled as association lists. -/
def dictLookup (d : List (String × String)) (k : String) : Option String :=
  (d.find? (fun p => p.1 == k)).map (fun p => p.2)

/-- Tests that `sub` occurs as a contiguous run inside `l`. -/
def listContainsRun [DecidableEq α] (l sub : List α) : Bool :=
  (List.range (l.length + 1)).any (fun i => (l.drop i).take sub.length == sub)

/-- Substring test: `sub` occurs contiguously inside `s`.  Models the
SQL `LIKE '%sub%'` test generated by SQLAlchemy's `Column.contains`. -/
def strContainsSub (s sub : String) : Bool :=
  listContainsRun s.toList sub.toList

/-- Serialization (`json.dumps`) of a list of strings, as stored in the JSON `tags`
column: `["a", "b"]` with the default `", "` separator. -/
def jsonDumpsList (ts : List String) : String :=
  "[" ++ String.intercalate ", " (ts.map (fun t => "\x22" ++ t ++ "\x22")) ++ "]"

/-- Models Python `str.lower()` by per-character ASCII case folding
(the stored answer keys are single-letter option keys). -/
def pyLower (s : String) : String := String.mk (s.data.map Char.toLower)

/-- Models `round(x, 2)`: rounding to two decimal places, over `ℚ`. -/
def round2 (q : ℚ) : ℚ := (round (q * 100) : ℤ) / 100

/-- Models `round(x, 1)`: rounding to one decimal place, over `ℚ`. -/
def round1 (q : ℚ) : ℚ := (round (q * 10) : ℤ) / 10

/-- Row of the `questions` table (models.py, class `Question`). -/
structure Question where
  id : Nat
  question_id : String
  question_text : String
  options : List (String × String)
  correct_answer : String
  explanations : Option (List (String × String))
  hints : Option (List String)
  chapter_name : String
  chapter_number : Nat
  difficulty_level : String
  question_type : String
  tags : Option (List String)
  is_active : Bool
deriving DecidableEq

/-- Request schema `QuestionFilter` (schemas.py). `limit` and `offset`
default to 10 and 0. -/
structure QuestionFilter where
  chapter_numbers : Option (List Nat) := none
  difficulty_levels : Option (List String) := none
  tags : Option (List String) := none
  question_types : Option (List String) := none
  limit : Nat := 10
  offset : Nat := 0
deriving DecidableEq

/-- Models `Question.tags.contains` of the quoted tag (question.py lines 56-57 and
88-89): a `LIKE` containment test of the quoted tag against the JSON
serialization of the `tags` column; `NULL` tags match nothing. -/
def tagsColumnContains (q : Question) (tag : String) : Bool :=
  match q.tags with
  | none => false
  | some ts => strContainsSub (jsonDumpsList ts) ("\x22" ++ tag ++ "\x22")

/-- Chapter-number dimension of the filter (question.py lines 45-46):
applied only when `filters.chapter_numbers` is truthy. -/
def chapterDim (filters : QuestionFilter) (q : Question) : Bool :=
  !truthyList filters.chapter_numbers
    || (filters.chapter_numbers.getD []).contains q.chapter_number

/-- Difficulty dimension of the filter (question.py lines 48-49). -/
def difficultyDim (filters : QuestionFilter) (q : Question) : Bool :=
  !truthyList filters.difficulty_levels
    || (filters.difficulty_levels.getD []).contains q.difficulty_level

/-- Question-type dimension of the filter (question.py lines 51-52). -/
def questionTypeDim (filters : QuestionFilter) (q : Question) : Bool :=
  !truthyList filters.question_types
    || (filters.question_types.getD []).contains q.question_type

/-- Tag dimension of the filter as the code executes it (question.py
lines 54-57): one `query.filter` per requested tag, so the calls
conjoin — the question must match EVERY requested tag. -/
def tagsDim (filters : QuestionFilter) (q : Question) : Bool :=
  !truthyList filters.tags
    || (filters.tags.getD []).all (fun t => tagsColumnContains q t)

/-- The full filtering predicate of `get_questions_filtered` /
`get_random_question`: active flag plus the four dimensions. -/
def matchesFilters (filters : QuestionFilter) (q : Question) : Bool :=
  q.is_active && chapterDim filters q && difficultyDim filters q
    && questionTypeDim filters q && tagsDim filters q

/-- The rows matched by the query of `get_questions_filtered` before
pagination (question.py lines 42-57). -/
def filteredQuery (db : List Question) (filters : QuestionFilter) : List Question :=
  db.filter (fun q => matchesFilters filters q)

/-- Embedding of `get_questions_filtered` (question.py lines 36-65): matching rows
paginated by offset/limit, together with the pre-pagination count. -/
def get_questions_filtered (db : List Question) (filters : QuestionFilter) :
    List Question × Nat :=
  let query := filteredQuery db filters
  ((query.drop filters.offset).take filters.limit, query.length)

/-- Rows a user has attempted at least once (question.py lines 92-96). -/
def attemptedBy (activityUserIds : List (Nat × Nat)) (user_id : Nat) : List Nat :=
  (activityUserIds.filter (fun p => p.1 == user_id)).map (fun p => p.2)

/-- Embedding of `get_random_question` (question.py lines 68-103), with the call to
`random.choice` modelled by an arbitrary index `choice` reduced modulo
the candidate count: same filter as `get_questions_filtered`, optional
exclusion of questions the user already attempted, `None` when no
candidate remains.  `activityPairs` lists the `(user_id, question_id)`
pairs of the `user_activities` table. -/
def get_random_question (db : List Question) (filters : QuestionFilter)
    (user_id : Option Nat) (exclude_attempted : Bool)
    (activityPairs : List (Nat × Nat)) (choice : Nat) : Option Question :=
  let query := db.filter (fun q => matchesFilters filters q)
  let query :=
    match user_id with
    | some uid =>
        if exclude_attempted then
          query.filter (fun (q : Question) => !(attemptedBy activityPairs uid).contains q.id)
        else query
    | none => query
  if query.isEmpty then none
  else query.get? (choice % query.length)

/-- Modelled from the spec: tag dimension with OR semantics — "question
matches if it contains at least one of the requested tags".  Used only
to compare the spec's wording with the code's `tagsDim`. -/
def specTagsDimOr (filters : QuestionFilter) (q : Question) : Bool :=
  !truthyList filters.tags
    || (filters.tags.getD []).any (fun t => (q.tags.getD []).contains t)

/-- Modelled from the spec: the whole filtering predicate with OR
semantics inside the tag dimension, AND across dimensions. -/
def specMatchesFiltersOr (filters : QuestionFilter) (q : Question) : Bool :=
  q.is_active && chapterDim filters q && difficultyDim filters q
    && questionTypeDim filters q && specTagsDimOr filters q

/-- Row of the `user_activities` table (models.py, class `UserActivity`).
`is_correct` and `completed_at` are nullable columns, but every row
written by `record_user_activity` sets both, so they are modelled as
non-optional; `completed_at` is a `Nat` timestamp in seconds. -/
structure UserActivity where
  id : Nat
  user_id : Nat
  question_id : Nat
  user_answer : String
  is_correct : Bool
  time_spent : Option Nat
  attempt_number : Nat
  completed_at : Nat
deriving DecidableEq

/-- Request schema `AnswerSubmission` (schemas.py). -/
structure AnswerSubmission where
  question_id : Nat
  user_answer : String
  time_spent : Option Nat := none
deriving DecidableEq

/-- The rows of the `user_activities` table for one (user, question)
pair — the query repeated at analytics.py lines 21-26 and 31-36. -/
def pairActivities (adb : List UserActivity) (user_id question_id : Nat) :
    List UserActivity :=
  adb.filter (fun a => a.user_id == user_id && a.question_id == question_id)

/-- Embedding of `record_user_activity` (analytics.py lines 13-52): computes the
attempt number as 1 when the pair has no prior row, else
`max(existing attempt_numbers) + 1`, then inserts the new row.  `newId`
is the fresh primary key and `now` the commit timestamp. -/
def record_user_activity (adb : List UserActivity) (user_id : Nat)
    (submission : AnswerSubmission) (is_correct : Bool)
    (newId now : Nat) : UserActivity × List UserActivity :=
  let existing := pairActivities adb user_id submission.question_id
  let attempt_number :=
    if existing.isEmpty then 1
    else ((existing.map (fun a => a.attempt_number)).foldl max 0) + 1
  let activity : UserActivity :=
    { id := newId, user_id := user_id, question_id := submission.question_id,
      user_answer := submission.user_answer, is_correct := is_correct,
      time_spent := submission.time_spent, attempt_number := attempt_number,
      completed_at := now }
  (activity, adb ++ [activity])

/-- First-occurrence deduplication; models the key set of a SQL
`GROUP BY` / of a Python dict built by insertion. -/
def dedupFirst [DecidableEq α] : List α → List α
  | [] => []
  | x :: xs => x :: (dedupFirst xs).filter (fun y => y ≠ x)

/-- Models `GROUP BY key` with `COUNT(*)` per group, groups in first-occurrence
order. -/
def groupCounts [DecidableEq α] (keys : List α) : List (α × Nat) :=
  (dedupFirst keys).map (fun k => (k, keys.countP (fun y => y == k)))

/-- Inner join of the user's activity rows with the `questions` table on
`UserActivity.question_id = Question.id` (no `is_active` condition),
as produced by `.join(...)` plus the user filter in analytics.py. -/
def innerJoin (adb : List UserActivity) (qdb : List Question) (user_id : Nat) :
    List (UserActivity × Question) :=
  (adb.filter (fun a => a.user_id == user_id)).flatMap
    (fun a => (qdb.filter (fun q => q.id == a.question_id)).map (fun q => (a, q)))

/-- Response schema `UserStats` (schemas.py); percentages over `ℚ`. -/
structure UserStats where
  total_questions_attempted : Nat
  correct_answers : Nat
  accuracy_percentage : ℚ
  total_time_spent : Nat
  average_time_per_question : ℚ
  questions_by_difficulty : List (String × Nat)
  questions_by_chapter : List (String × Nat)
deriving DecidableEq

/-- Embedding of `get_user_stats` (analytics.py lines 55-109): totals, accuracy and
average time (0 when the user has no activity), plus difficulty and
chapter breakdown counts from the join with `questions`. -/
def get_user_stats (qdb : List Question) (adb : List UserActivity)
    (user_id : Nat) : UserStats :=
  let userActs := adb.filter (fun a => a.user_id == user_id)
  let total_activities := userActs.length
  let correct_answers := (userActs.filter (fun a => a.is_correct)).length
  let total_time := (userActs.filterMap (fun a => a.time_spent)).sum
  let joined := innerJoin adb qdb user_id
  let difficulty_stats := groupCounts (joined.map (fun p => p.2.difficulty_level))
  let chapter_stats :=
    groupCounts (joined.map (fun p => (p.2.chapter_number, p.2.chapter_name)))
  let accuracy : ℚ :=
    if total_activities > 0 then (correct_answers : ℚ) / total_activities * 100 else 0
  let avg_time : ℚ :=
    if total_activities > 0 then (total_time : ℚ) / total_activities else 0
  { total_questions_attempted := total_activities,
    correct_answers := correct_answers,
    accuracy_percentage := round2 accuracy,
    total_time_spent := total_time,
    average_time_per_question := round2 avg_time,
    questions_by_difficulty := difficulty_stats,
    questions_by_chapter :=
      chapter_stats.map (fun p => ("Ch" ++ toString p.1.1 ++ ": " ++ p.1.2, p.2)) }

/-- Response schema `ChapterProgress` (schemas.py). -/
structure ChapterProgressEntry where
  chapter_number : Nat
  chapter_name : String
  total_questions : Nat
  attempted_questions : Nat
  correct_answers : Nat
  accuracy_percentage : ℚ
deriving DecidableEq

/-- The user's joined activity rows falling in chapter `ch` — one group
of the `user_attempts` query of analytics.py lines 124-130 (the join
carries no `is_active` condition, so attempts on inactive questions
count too; grouping is by chapter number alone). -/
def chapterAttemptRows (qdb : List Question) (adb : List UserActivity)
    (user_id ch : Nat) : List (UserActivity × Question) :=
  (innerJoin adb qdb user_id).filter (fun p => p.2.chapter_number == ch)

/-- Embedding of `get_chapter_progress` (analytics.py lines 112-152),
per-chapter part: the entry built for one (chapter_number, chapter_name)
group of active questions — total active questions of the group, the
user attempt/correct counts for the chapter number (zero when the user
never attempted the chapter), and accuracy correct/attempted × 100
(0 when attempted = 0). -/
def chapterProgressEntry (qdb : List Question) (adb : List UserActivity)
    (user_id : Nat) (c : Nat × String) : ChapterProgressEntry :=
  { chapter_number := c.1, chapter_name := c.2,
    total_questions :=
      ((qdb.filter (fun q => q.is_active)).filter
        (fun q => q.chapter_number == c.1 && q.chapter_name == c.2)).length,
    attempted_questions := (chapterAttemptRows qdb adb user_id c.1).length,
    correct_answers :=
      ((chapterAttemptRows qdb adb user_id c.1).filter
        (fun p => p.1.is_correct)).length,
    accuracy_percentage :=
      round2 (if (chapterAttemptRows qdb adb user_id c.1).length > 0
              then ((((chapterAttemptRows qdb adb user_id c.1).filter
                      (fun p => p.1.is_correct)).length : ℚ)
                    / (chapterAttemptRows qdb adb user_id c.1).length) * 100
              else 0) }

/-- Embedding of `get_chapter_progress`, continued: the list of entries,
one per (chapter_number, chapter_name) group of active questions in
first-occurrence order. -/
def get_chapter_progress (qdb : List Question) (adb : List UserActivity)
    (user_id : Nat) : List ChapterProgressEntry :=
  (dedupFirst ((qdb.filter (fun q => q.is_active)).map
    (fun q => (q.chapter_number, q.chapter_name)))).map
    (chapterProgressEntry qdb adb user_id)

/-- The user's activity rows ordered by `completed_at` descending
(`order_by(desc(UserActivity.completed_at))`); ties keep table order. -/
def activitiesByRecency (adb : List UserActivity) (user_id : Nat) :
    List UserActivity :=
  (adb.filter (fun a => a.user_id == user_id)).insertionSort
    (fun a b => b.completed_at ≤ a.completed_at)

/-- The `today` block of `get_real_time_stats` (analytics.py). -/
structure TodayStats where
  questions_attempted : Nat
  correct_answers : Nat
  accuracy : ℚ
  time_spent : Nat
  current_streak : Nat
deriving DecidableEq

/-- Return shape of `get_real_time_stats` (without `last_updated`). -/
structure RealTimeStats where
  today : TodayStats
  overall : UserStats
  chapter_progress : List ChapterProgressEntry
deriving DecidableEq

/-- Embedding of `get_real_time_stats` (analytics.py lines 273-318): today's counts
and accuracy, and the streak loop over the TEN most recent activities
(`limit(10)` at line 298), incrementing per correct row and breaking at
the first incorrect one.  `today_start` is the midnight timestamp. -/
def get_real_time_stats (qdb : List Question) (adb : List UserActivity)
    (user_id : Nat) (today_start : Nat) : RealTimeStats :=
  let today_activities :=
    adb.filter (fun a => a.user_id == user_id && today_start ≤ a.completed_at)
  let today_total := today_activities.length
  let today_correct := (today_activities.filter (fun a => a.is_correct)).length
  let today_time := (today_activities.filterMap (fun a => a.time_spent)).sum
  let today_accuracy : ℚ :=
    if today_total > 0 then (today_correct : ℚ) / today_total * 100 else 0
  let recent_activities := (activitiesByRecency adb user_id).take 10
  let current_streak := (recent_activities.takeWhile (fun a => a.is_correct)).length
  { today := { questions_attempted := today_total,
               correct_answers := today_correct,
               accuracy := round1 today_accuracy,
               time_spent := today_time,
               current_streak := current_streak },
    overall := get_user_stats qdb adb user_id,
    chapter_progress := get_chapter_progress qdb adb user_id }

/-- Modelled from the spec: "current streak = count of consecutive
most-recent-first correct answers, breaking at the first incorrect one",
over the user's ENTIRE activity history (the spec states no bound on how
far back the count may reach). -/
def specCurrentStreak (adb : List UserActivity) (user_id : Nat) : Nat :=
  ((activitiesByRecency adb user_id).takeWhile (fun a => a.is_correct)).length

/-- The calendar day of a timestamp (`completed_at.date()`). -/
def dayOf (t : Nat) : Nat := t / 86400

/-- The fields of `get_detailed_analytics` (analytics.py lines 359-478)
that the claims concern.  The remaining insight fields (peak hour,
improvement areas, strengths, most active day, preferred difficulty,
trends) are independent computations over the same rows and are not
modelled. -/
structure DetailedInsightsPart where
  total_practice_time : Nat
  average_session_length : ℚ
  consistency_score : ℚ
deriving DecidableEq

/-- Embedding of `get_detailed_analytics` (analytics.py lines 359-478),
restricted to `total_practice_time`, `average_session_length` and
`consistency_score` (the remaining insight fields are independent
computations over the same rows and are not modelled).  This definition
is the selection query of lines 364-372: rows of the last `days` days
joined with `questions`. -/
def detailedActivityRows (qdb : List Question) (adb : List UserActivity)
    (user_id days now : Nat) : List (UserActivity × Question) :=
  (adb.filter (fun a => a.user_id == user_id
      && (now - days * 86400) ≤ a.completed_at)).flatMap
    (fun a => (qdb.filter (fun q => q.id == a.question_id)).map (fun q => (a, q)))

/-- The `unique_dates` value of `get_detailed_analytics` (analytics.py
line 456): distinct calendar days among the selected activities. -/
def detailedUniqueDates (qdb : List Question) (adb : List UserActivity)
    (user_id days now : Nat) : List Nat :=
  dedupFirst ((detailedActivityRows qdb adb user_id days now).map
    (fun p => dayOf p.1.completed_at))

/-- The `total_time` value of `get_detailed_analytics` (analytics.py
line 459): seconds summed over activities with a recorded time. -/
def detailedTotalTime (qdb : List Question) (adb : List UserActivity)
    (user_id days now : Nat) : Nat :=
  (((detailedActivityRows qdb adb user_id days now).map (fun p => p.1)).filterMap
    (fun a => a.time_spent)).sum

/-- Embedding of `get_detailed_analytics` (analytics.py lines 359-478),
continued: the early return when the window holds no activity, else
consistency = distinct active days / days × 100 (0 when `days` = 0) and
average session length = total time / distinct active days (0 when no
active day). -/
def get_detailed_analytics_part (qdb : List Question) (adb : List UserActivity)
    (user_id days now : Nat) : DetailedInsightsPart :=
  if (detailedActivityRows qdb adb user_id days now).isEmpty then
    { total_practice_time := 0, average_session_length := 0, consistency_score := 0 }
  else
    { total_practice_time := detailedTotalTime qdb adb user_id days now,
      average_session_length :=
        round1 (if (detailedUniqueDates qdb adb user_id days now).isEmpty then 0
                else (detailedTotalTime qdb adb user_id days now : ℚ)
                      / (detailedUniqueDates qdb adb user_id days now).length),
      consistency_score :=
        round1 (if days > 0
                then ((detailedUniqueDates qdb adb user_id days now).length : ℚ)
                      / days * 100
                else 0) }

/-- Row of the `users` table (models.py, class `User`), restricted to
the fields the AI chat service reads and writes; `last_ai_query_date`
is a nullable `Date` column modelled as an `Option Nat` day number. -/
structure User where
  id : Nat
  username : String
  is_active : Bool
  subscription_tier : String
  ai_queries_today : Nat
  last_ai_query_date : Option Nat
deriving DecidableEq

/-- Embedding of `AIChatService._verify_query_limit` (service.py lines
183-201): if the stored date differs from `today`, set the date to
`today` and reset the counter to 0 (committed); then report whether a
429 is raised — tier `base` with counter at (or above) 50.  Returns the
user row after the possible reset together with the rejection flag. -/
def verify_query_limit (user : User) (today : Nat) : User × Bool :=
  let user :=
    if user.last_ai_query_date != some today then
      { user with last_ai_query_date := some today, ai_queries_today := 0 }
    else user
  (user, user.subscription_tier == "base" && decide (user.ai_queries_today ≥ 50))

/-- Outcome of one chat request as seen by the caller. -/
inductive AIOutcome where
  | rateLimited (detail : String)
  | reply (text : String)
deriving DecidableEq

/-- Embedding of `AIChatService.get_ai_response` (service.py lines
203-223).  The call to `self.agent_executor.invoke` — the external
language-model agent — is modelled by the parameter `invokeResult`:
`Except.error e` when it raises, `Except.ok output` when it returns,
with `output` the value of `response.get("output", ...)` (`none` when
the key is absent).  On success the counter is incremented and
committed; on the no-executor path and on exception it is not. -/
def get_ai_response (user : User) (today : Nat) (hasAgentExecutor : Bool)
    (invokeResult : Except String (Option String)) : User × AIOutcome :=
  let checked := verify_query_limit user today
  if checked.2 then
    (checked.1, .rateLimited "Daily query limit reached. Upgrade to Pro for more queries.")
  else if !hasAgentExecutor then
    (checked.1, .reply "Sorry, the AI Tutor is not available. The API key may not be configured correctly.")
  else
    match invokeResult with
    | .ok output =>
        ({ checked.1 with ai_queries_today := checked.1.ai_queries_today + 1 },
         .reply (output.getD "I\x27m not sure how to respond to that."))
    | .error _ =>
        (checked.1, .reply "Sorry, I encountered an error. Please try again.")

/-- Response schema `AnswerResponse` (schemas.py). -/
structure AnswerResponse where
  is_correct : Bool
  correct_answer : String
  explanation : Option String
  user_answer : String
deriving DecidableEq

/-- Result of the `check_answer` endpoint: 404 or the response body. -/
inductive CheckAnswerResult where
  | notFound
  | ok (response : AnswerResponse)
deriving DecidableEq

/-- Embedding of `get_question_by_id` (question.py lines 22-26): first
row with the given primary key among active questions. -/
def get_question_by_id (db : List Question) (question_id : Nat) :
    Option Question :=
  db.find? (fun q => q.id == question_id && q.is_active)

/-- Truthiness of the `explanations` JSON column: `None` and the empty
dict are falsy. -/
def truthyDict : Option (List (String × String)) → Bool
  | none => false
  | some d => !d.isEmpty

/-- The explanation chosen by `check_answer` (questions.py lines
156-161): the entry keyed by the submitted answer when `explanations`
is truthy and holds one, else the entry keyed by the stored correct
answer, else none. -/
def chooseExplanation (q : Question) (user_answer : String) : Option String :=
  if truthyDict q.explanations
      && (dictLookup (q.explanations.getD []) user_answer).isSome then
    dictLookup (q.explanations.getD []) user_answer
  else if truthyDict q.explanations
      && (dictLookup (q.explanations.getD []) q.correct_answer).isSome then
    dictLookup (q.explanations.getD []) q.correct_answer
  else
    none

/-- Embedding of the `check_answer` endpoint (questions.py lines
126-170), restricted to its response value: 404 when the question id
does not resolve; otherwise correctness by case-insensitive comparison
(line 143), the stored correct answer returned verbatim, and the
explanation of `chooseExplanation`.  (The endpoint also records the
activity via `record_user_activity` and broadcasts stats; those side
effects are modelled separately.) -/
def check_answer (db : List Question) (submission : AnswerSubmission) :
    CheckAnswerResult :=
  match get_question_by_id db submission.question_id with
  | none => .notFound
  | some question =>
      let is_correct := pyLower submission.user_answer == pyLower question.correct_answer
      .ok { is_correct := is_correct,
            correct_answer := question.correct_answer,
            explanation := chooseExplanation question submission.user_answer,
            user_answer := submission.user_answer }

/-- Row of the `marks` table (models.py, class `Mark`). -/
structure Mark where
  id : Nat
  user_id : Nat
  question_id : Nat
  mark_type : String
  notes : Option String
  created_at : Nat
deriving DecidableEq

/-- Embedding of `remove_mark` (analytics.py lines 218-229): look up the
first mark whose id AND owner match; delete that row and return `true`,
or return `false` leaving the table unchanged. -/
def remove_mark (marks : List Mark) (user_id mark_id : Nat) :
    Bool × List Mark :=
  match marks.find? (fun m => m.id == mark_id && m.user_id == user_id) with
  | some _ => (true, marks.eraseP (fun m => m.id == mark_id && m.user_id == user_id))
  | none => (false, marks)

/-- Result of the `remove_mark` endpoint. -/
inductive RemoveMarkResult where
  | ok (message : String)
  | httpError (statusCode : Nat) (detail : String)
deriving DecidableEq

/-- Embedding of `remove_mark_endpoint` (questions.py lines 234-258):
maps the `false` return of `remove_mark` to a 404 and the `true` return
to a success message; returns the resulting marks table. -/
def remove_mark_endpoint (marks : List Mark) (current_user_id mark_id : Nat) :
    RemoveMarkResult × List Mark :=
  let result := remove_mark marks current_user_id mark_id
  (if result.1 then .ok "Mark removed successfully"
   else .httpError 404 "Mark not found", result.2)

/-- Response schema `QuestionPractice` (schemas.py lines 84-94): the
practice view of a question.  Its fields are exactly id, external
question id, text, options, hints, chapter name, chapter number,
difficulty level and tags — no correct answer, no explanations. -/
structure QuestionPractice where
  id : Nat
  question_id : String
  question_text : String
  options : List (String × String)
  hints : Option (List String)
  chapter_name : String
  chapter_number : Nat
  difficulty_level : String
  tags : Option (List String)
deriving DecidableEq

/-- The `QuestionPractice(...)` constructor call of questions.py lines
52-62 and 102-112. -/
def toPractice (q : Question) : QuestionPractice :=
  { id := q.id, question_id := q.question_id, question_text := q.question_text,
    options := q.options, hints := q.hints, chapter_name := q.chapter_name,
    chapter_number := q.chapter_number, difficulty_level := q.difficulty_level,
    tags := q.tags }

/-- The `page_info` block of the `filter_questions` response. -/
structure PageInfo where
  limit : Nat
  offset : Nat
  has_more : Bool
deriving DecidableEq

/-- Response of the `filter_questions` endpoint. -/
structure FilterResponse where
  questions : List QuestionPractice
  total_count : Nat
  page_info : PageInfo
deriving DecidableEq

/-- Embedding of the `filter_questions` endpoint (questions.py lines
40-74): filtered page converted to practice format plus count and
pagination info. -/
def filter_questions (db : List Question) (filters : QuestionFilter) :
    FilterResponse :=
  let result := get_questions_filtered db filters
  { questions := result.1.map toPractice,
    total_count := result.2,
    page_info := { limit := filters.limit, offset := filters.offset,
                   has_more := decide (result.2 > filters.offset + filters.limit) } }

/-- Embedding of the `get_practice_question` endpoint (questions.py
lines 84-114), restricted to its response value: the random question in
practice format, or a 404 (`none`) when no question matches. -/
def get_practice_question (db : List Question) (filters : QuestionFilter)
    (current_user_id : Nat) (exclude_attempted : Bool)
    (activityPairs : List (Nat × Nat)) (choice : Nat) : Option QuestionPractice :=
  (get_random_question db filters (some current_user_id) exclude_attempted
    activityPairs choice).map toPractice

/-- Equality of two question rows on every field EXCEPT
`correct_answer` and `explanations` — the relation "the two catalogs
differ only in answer keys and explanations". -/
def publicEq (q q' : Question) : Prop :=
  q.id = q'.id ∧ q.question_id = q'.question_id ∧
  q.question_text = q'.question_text ∧ q.options = q'.options ∧
  q.hints = q'.hints ∧ q.chapter_name = q'.chapter_name ∧
  q.chapter_number = q'.chapter_number ∧
  q.difficulty_level = q'.difficulty_level ∧
  q.question_type = q'.question_type ∧ q.tags = q'.tags ∧
  q.is_active = q'.is_active

/-! ## Claims -/

/-- Concrete catalog question used for the C1 instances: active MCQ in
chapter 1 with the single tag "x". -/
def c1Question : Question :=
  { id := 1, question_id := "PHY09-CH01-MCQ0001", question_text := "t",
    options := [("a", "o1"), ("b", "o2")], correct_answer := "a",
    explanations := none, hints := none, chapter_name := "Motion",
    chapter_number := 1, difficulty_level := "Easy",
    question_type := "multiple_choice", tags := some ["x"], is_active := true }

/-- Filter requesting the two tags "x" and "y". -/
def c1Filters : QuestionFilter := { tags := some ["x", "y"] }

/-- Filter requesting the single tag "x". -/
def c1FiltersSingle : QuestionFilter := { tags := some ["x"] }

/-- C1 counterexample: a question carrying tag "x" satisfies the
spec-worded predicate (OR over the requested tags ["x", "y"], all other
dimensions pass), yet `get_questions_filtered` returns it in neither the
page nor the count — the code conjoins one containment test per tag, so
a question matching only one of two requested tags is filtered out. -/
theorem C1_counterexample :
    specMatchesFiltersOr c1Filters c1Question = true ∧
    truthyList c1Filters.tags = true ∧
    c1Question ∈ [c1Question] ∧
    (get_questions_filtered [c1Question] c1Filters).1 = [] ∧
    (get_questions_filtered [c1Question] c1Filters).2 = 0 := by
  decide

/-- C1 (amended): in `get_questions_filtered` and `get_random_question`,
when the caller supplies a non-empty tag list, a question passes the tag
dimension if and only if for EVERY requested tag its serialized tag list
contains that quoted tag (AND semantics within the tag filter), and the
tag dimension is conjoined with the chapter-number, difficulty-level and
question-type membership filters.  (`filteredQuery` is the matching-row
query shared by both functions.) -/
theorem C1_filter_tag_semantics (db : List Question) (filters : QuestionFilter)
    (q : Question) (htags : truthyList filters.tags = true) :
    q ∈ filteredQuery db filters ↔
      q ∈ db ∧ q.is_active = true ∧ chapterDim filters q = true ∧
      difficultyDim filters q = true ∧ questionTypeDim filters q = true ∧
      ∀ t ∈ filters.tags.getD [], tagsColumnContains q t = true := by
  unfold filteredQuery matchesFilters tagsDim
  rw [List.mem_filter]
  simp [htags, List.all_eq_true, and_assoc]

/-- C1 witness: the amended theorem applied to the one-question catalog
and the single-tag filter. -/
theorem C1_filter_tag_semantics_witness :
    c1Question ∈ filteredQuery [c1Question] c1FiltersSingle := by
  exact (C1_filter_tag_semantics [c1Question] c1FiltersSingle c1Question
    (by decide)).mpr (by decide)

/-- Auxiliary: the prefix of correct answers inside the first `n`
activities has length `min` of the unbounded prefix length and `n`. -/
theorem length_takeWhile_take (p : α → Bool) :
    ∀ (n : Nat) (l : List α),
      ((l.take n).takeWhile p).length = min ((l.takeWhile p).length) n := by
  intro n l
  induction l generalizing n with
  | nil => simp
  | cons x xs ih =>
    cases n with
    | zero => simp
    | succ n =>
      rw [List.take_succ_cons, List.takeWhile_cons, List.takeWhile_cons]
      cases hp : p x
      · simp
      · simp [ih n, Nat.succ_min_succ]

/-- Concrete activity row number `i` for the C2 instances: user 1,
correct answer, strictly increasing timestamps. -/
def c2Activity (i : Nat) : UserActivity :=
  { id := i, user_id := 1, question_id := 1, user_answer := "a",
    is_correct := true, time_spent := some 10, attempt_number := 1,
    completed_at := i * 100 }

/-- Eleven consecutive correct answers by user 1. -/
def c2Acts : List UserActivity := (List.range 11).map c2Activity

/-- C2 counterexample: a user whose 11 most recent answers are all
correct.  The spec-worded streak (consecutive most-recent-first correct
answers, no bound) is 11, but the snapshot reports 10: the code reads
only the ten most recent rows (`limit(10)`). -/
theorem C2_counterexample :
    specCurrentStreak c2Acts 1 = 11 ∧
    (get_real_time_stats [] c2Acts 1 0).today.current_streak = 10 := by
  decide

/-- C2 (amended): the `current_streak` field of the real-time snapshot
equals the number of consecutive correct answers counted from the most
recent activity backwards, stopping at the first incorrect answer,
capped at 10 because only the ten most recent activities are read — that
is, `min` of the unbounded streak and 10.  In particular it is 0 when
the most recent answer was incorrect or the user has no activity, and it
never counts attempts prior to the first incorrect answer. -/
theorem C2_current_streak (qdb : List Question) (adb : List UserActivity)
    (user_id today_start : Nat) :
    (get_real_time_stats qdb adb user_id today_start).today.current_streak
      = min (specCurrentStreak adb user_id) 10 :=
  length_takeWhile_take (fun a : UserActivity => a.is_correct) 10
    (activitiesByRecency adb user_id)

/-- C3: on every chat request, the date rollover runs first: after
`verify_query_limit` the stored date is today, and the counter was reset
to 0 whenever the stored date differed; a base-tier user whose
post-reset counter is at least 50 gets the rate-limit outcome and no
increment; a successful generation increments the counter by exactly 1;
a raised generation error leaves the counter unchanged and yields the
fixed generic error string (independent of the exception text). -/
theorem C3_quota_lifecycle (user : User) (today : Nat) (hasAgentExecutor : Bool)
    (invokeResult : Except String (Option String)) :
    (verify_query_limit user today).1.last_ai_query_date = some today ∧
    (user.last_ai_query_date ≠ some today →
      (verify_query_limit user today).1.ai_queries_today = 0) ∧
    ((verify_query_limit user today).1.subscription_tier = "base" →
      (verify_query_limit user today).1.ai_queries_today ≥ 50 →
      (get_ai_response user today hasAgentExecutor invokeResult).2
          = .rateLimited "Daily query limit reached. Upgrade to Pro for more queries." ∧
      (get_ai_response user today hasAgentExecutor invokeResult).1.ai_queries_today
          = (verify_query_limit user today).1.ai_queries_today) ∧
    ((verify_query_limit user today).2 = false → hasAgentExecutor = true →
      ∀ output, invokeResult = .ok output →
        (get_ai_response user today hasAgentExecutor invokeResult).1.ai_queries_today
          = (verify_query_limit user today).1.ai_queries_today + 1) ∧
    ((verify_query_limit user today).2 = false → hasAgentExecutor = true →
      ∀ e, invokeResult = .error e →
        (get_ai_response user today hasAgentExecutor invokeResult).1.ai_queries_today
          = (verify_query_limit user today).1.ai_queries_today ∧
        (get_ai_response user today hasAgentExecutor invokeResult).2
          = .reply "Sorry, I encountered an error. Please try again.") := by
  refine ⟨?_, ?_, ?_, ?_, ?_⟩
  · unfold verify_query_limit
    by_cases h : user.last_ai_query_date = some today <;> simp [h]
  · intro h
    unfold verify_query_limit
    simp [h]
  · intro htier hcount
    have hflag : (verify_query_limit user today).2
        = ((verify_query_limit user today).1.subscription_tier == "base"
           && decide ((verify_query_limit user today).1.ai_queries_today ≥ 50)) := rfl
    have hlim : (verify_query_limit user today).2 = true := by
      rw [hflag, htier]
      simp [hcount]
    unfold get_ai_response
    simp [hlim]
  · intro hlim hexec output hok
    unfold get_ai_response
    simp [hlim, hexec, hok]
  · intro hlim hexec e herr
    unfold get_ai_response
    simp [hlim, hexec, herr]

/-- Concrete base-tier user for the C3 witness: 50 queries recorded on
day 9, request arriving on day 10. -/
def c3User : User :=
  { id := 1, username := "u", is_active := true, subscription_tier := "base",
    ai_queries_today := 50, last_ai_query_date := some 9 }

/-- C3 witness: on the new day the counter of `c3User` is reset to 0,
and a successful generation then brings it to exactly 1. -/
theorem C3_quota_lifecycle_witness :
    (verify_query_limit c3User 10).1.ai_queries_today = 0 ∧
    (get_ai_response c3User 10 true (Except.ok (some "hi"))).1.ai_queries_today = 1 := by
  have h := C3_quota_lifecycle c3User 10 true (Except.ok (some "hi"))
  exact ⟨h.2.1 (by decide), h.2.2.2.1 (by decide) rfl (some "hi") rfl⟩

/-- The attempt numbers recorded for one (user, question) pair, in table
order. -/
def attemptNumbers (adb : List UserActivity) (user_id question_id : Nat) :
    List Nat :=
  (pairActivities adb user_id question_id).map (fun a => a.attempt_number)

/-- Activity tables reachable by starting from the empty table and only
ever inserting rows through `record_user_activity` (the sole writer of
`user_activities` rows). -/
inductive Recorded : List UserActivity → Prop where
  | nil : Recorded []
  | step (adb : List UserActivity) (user_id : Nat) (submission : AnswerSubmission)
      (is_correct : Bool) (newId now : Nat) (h : Recorded adb) :
      Recorded (record_user_activity adb user_id submission is_correct newId now).2

/-- Auxiliary: the maximum of `[1, ..., k]` with seed 0 is `k`. -/
theorem foldl_max_range' (k : Nat) : (List.range' 1 k).foldl max 0 = k := by
  induction k with
  | zero => rfl
  | succ k ih =>
    rw [List.range'_concat, List.foldl_append]
    simp only [List.foldl_cons, List.foldl_nil, ih]
    omega

/-- Auxiliary: effect of one `record_user_activity` insertion on the
attempt-number list of an arbitrary (user, question) pair. -/
theorem attemptNumbers_record (adb : List UserActivity) (u : Nat)
    (sub : AnswerSubmission) (c : Bool) (i n uid qid : Nat) :
    attemptNumbers (record_user_activity adb u sub c i n).2 uid qid
      = attemptNumbers adb uid qid ++
        (if u == uid && sub.question_id == qid
         then [if (pairActivities adb u sub.question_id).isEmpty then 1
               else (attemptNumbers adb u sub.question_id).foldl max 0 + 1]
         else []) := by
  show attemptNumbers
      (adb ++ [(record_user_activity adb u sub c i n).1]) uid qid = _
  unfold attemptNumbers pairActivities
  rw [List.filter_append, List.map_append]
  by_cases hm : (u == uid && sub.question_id == qid) = true
  · simp only [List.filter_cons, List.filter_nil]
    have : ((record_user_activity adb u sub c i n).1.user_id == uid
        && (record_user_activity adb u sub c i n).1.question_id == qid) = true := hm
    rw [if_pos this, hm, if_pos rfl]
    rfl
  · simp only [List.filter_cons, List.filter_nil]
    have : ((record_user_activity adb u sub c i n).1.user_id == uid
        && (record_user_activity adb u sub c i n).1.question_id == qid) = false := by
      simpa using hm
    rw [this]
    simp [hm]

/-- Invariant: in every reachable activity table, the attempt numbers of
each (user, question) pair are exactly `1, 2, ..., k` in insertion
order. -/
theorem recorded_attemptNumbers {adb : List UserActivity} (h : Recorded adb) :
    ∀ uid qid, attemptNumbers adb uid qid
      = List.range' 1 (attemptNumbers adb uid qid).length := by
  induction h with
  | nil => intro uid qid; rfl
  | step adb u sub c i n hrec ih =>
    intro uid qid
    rw [attemptNumbers_record adb u sub c i n uid qid]
    by_cases hm : (u == uid && sub.question_id == qid) = true
    · obtain ⟨hu, hq⟩ := by simpa [beq_iff_eq] using hm
      subst hu; subst hq
      rw [if_pos hm]
      by_cases hE : (pairActivities adb u sub.question_id).isEmpty = true
      · have hnil : pairActivities adb u sub.question_id = [] :=
          List.isEmpty_iff.mp hE
        have : attemptNumbers adb u sub.question_id = [] := by
          unfold attemptNumbers
          rw [hnil]; rfl
        rw [this, if_pos hE]
        rfl
      · rw [if_neg hE]
        have hk := ih u sub.question_id
        rw [hk, foldl_max_range', List.length_append, List.length_range',
          List.length_singleton, List.range'_concat]
        congr 1
        simp [Nat.add_comm]
    · rw [if_neg hm]
      simpa using ih uid qid

/-- C4: for every reachable activity table and every (user, question)
pair, the recorded attempt numbers are exactly `1, 2, ..., k` in
insertion order — strictly increasing, starting at 1, never reused,
never decremented — and the next call of `record_user_activity` for the
pair assigns `max(existing attempt numbers) + 1`, which is `k + 1`
(hence 1 when no prior attempt exists). -/
theorem C4_attempt_number_invariant (adb : List UserActivity)
    (h : Recorded adb) (user_id : Nat) (submission : AnswerSubmission)
    (is_correct : Bool) (newId now : Nat) :
    attemptNumbers adb user_id submission.question_id
      = List.range' 1 (attemptNumbers adb user_id submission.question_id).length ∧
    (attemptNumbers adb user_id submission.question_id).Pairwise (· < ·) ∧
    (record_user_activity adb user_id submission is_correct newId now).1.attempt_number
      = (attemptNumbers adb user_id submission.question_id).length + 1 := by
  have hinv := recorded_attemptNumbers h user_id submission.question_id
  refine ⟨hinv, ?_, ?_⟩
  · rw [hinv]; exact List.pairwise_lt_range' 1 _
  · show (if (pairActivities adb user_id submission.question_id).isEmpty then 1
        else (attemptNumbers adb user_id submission.question_id).foldl max 0 + 1)
      = (attemptNumbers adb user_id submission.question_id).length + 1
    by_cases hE : (pairActivities adb user_id submission.question_id).isEmpty = true
    · have hnil : pairActivities adb user_id submission.question_id = [] :=
        List.isEmpty_iff.mp hE
      have hnum : attemptNumbers adb user_id submission.question_id = [] := by
        unfold attemptNumbers
        rw [hnil]; rfl
      rw [if_pos hE, hnum]
      rfl
    · rw [if_neg hE, hinv, foldl_max_range', List.length_range']

/-- First submission of the C4 witness scenario (question 7). -/
def c4Sub1 : AnswerSubmission := { question_id := 7, user_answer := "a" }

/-- Second submission of the C4 witness scenario (same question). -/
def c4Sub2 : AnswerSubmission := { question_id := 7, user_answer := "b" }

/-- Activity table after one recorded submission. -/
def c4Db1 : List UserActivity := (record_user_activity [] 1 c4Sub1 true 100 5).2

/-- Activity table after two recorded submissions for the same pair. -/
def c4Db2 : List UserActivity :=
  (record_user_activity c4Db1 1 c4Sub2 false 101 6).2

/-- C4 witness: after two submissions of user 1 for question 7 the
recorded attempt numbers are `[1, 2]`, and a third submission is
assigned attempt number 3. -/
theorem C4_attempt_number_invariant_witness :
    attemptNumbers c4Db2 1 7 = [1, 2] ∧
    (record_user_activity c4Db2 1 c4Sub1 true 102 7).1.attempt_number = 3 := by
  have hrec : Recorded c4Db2 :=
    Recorded.step c4Db1 1 c4Sub2 false 101 6
      (Recorded.step [] 1 c4Sub1 true 100 5 Recorded.nil)
  have h := C4_attempt_number_invariant c4Db2 hrec 1 c4Sub1 true 102 7
  refine ⟨by decide, ?_⟩
  rw [h.2.2]
  decide

/-- Auxiliary: the explanation choice of `check_answer` is exactly "the
entry keyed by the submitted answer, else the entry keyed by the stored
correct answer, else none". -/
theorem chooseExplanation_eq (q : Question) (ua : String) :
    chooseExplanation q ua
      = Option.orElse (dictLookup (q.explanations.getD []) ua)
          (fun _ => dictLookup (q.explanations.getD []) q.correct_answer) := by
  cases hx : q.explanations with
  | none => simp [chooseExplanation, truthyDict, hx, dictLookup, Option.orElse]
  | some d =>
    cases d with
    | nil => simp [chooseExplanation, truthyDict, hx, dictLookup, Option.orElse]
    | cons p ps =>
      cases h1 : dictLookup (p :: ps) ua with
      | some e => simp [chooseExplanation, truthyDict, hx, h1, Option.orElse]
      | none =>
        cases h2 : dictLookup (p :: ps) q.correct_answer with
        | some e => simp [chooseExplanation, truthyDict, hx, h1, h2, Option.orElse]
        | none => simp [chooseExplanation, truthyDict, hx, h1, h2, Option.orElse]

/-- C5: when the submitted question id resolves, `check_answer` returns
a response whose `is_correct` is true if and only if the submitted
answer equals the stored correct answer case-insensitively, whose
`correct_answer` is the stored key verbatim (not case-normalized), and
whose explanation is the one keyed exactly by the submitted answer if
present, else the one keyed by the stored correct answer if present,
else none. -/
theorem C5_check_answer_semantics (db : List Question)
    (submission : AnswerSubmission) (q : Question)
    (hq : get_question_by_id db submission.question_id = some q) :
    ∃ r, check_answer db submission = .ok r ∧
      (r.is_correct = true ↔
        pyLower submission.user_answer = pyLower q.correct_answer) ∧
      r.correct_answer = q.correct_answer ∧
      r.user_answer = submission.user_answer ∧
      r.explanation
        = Option.orElse (dictLookup (q.explanations.getD []) submission.user_answer)
            (fun _ => dictLookup (q.explanations.getD []) q.correct_answer) := by
  unfold check_answer
  rw [hq]
  refine ⟨_, rfl, ?_, rfl, rfl, ?_⟩
  · simp
  · exact chooseExplanation_eq q submission.user_answer

/-- Concrete question for the C5 witness: correct answer stored as
lowercase "a", explanations keyed by "B" and by "a". -/
def c5Question : Question :=
  { id := 3, question_id := "PHY09-CH01-MCQ0003", question_text := "t",
    options := [("a", "o1"), ("B", "o2")], correct_answer := "a",
    explanations := some [("B", "expB"), ("a", "expA")], hints := none,
    chapter_name := "Motion", chapter_number := 1, difficulty_level := "Easy",
    question_type := "multiple_choice", tags := none, is_active := true }

/-- Concrete submission for the C5 witness: answer "B" to `c5Question`. -/
def c5Submission : AnswerSubmission := { question_id := 3, user_answer := "B" }

/-- C5 witness: submitting "B" against correct answer "a" yields
`is_correct = false`, the stored "a" verbatim, and the explanation
keyed by "B". -/
theorem C5_check_answer_semantics_witness :
    check_answer [c5Question] c5Submission
      = .ok { is_correct := false, correct_answer := "a",
              explanation := some "expB", user_answer := "B" } := by
  obtain ⟨r, hr, hic, hca, hua, hexp⟩ :=
    C5_check_answer_semantics [c5Question] c5Submission c5Question (by decide)
  rw [hr]
  obtain ⟨ic, ca, ex, ua2⟩ := r
  simp only [] at hic hca hua hexp
  rw [hca, hua, hexp]
  have hfalse : ic = false := by
    cases h : ic
    · rfl
    · exact absurd (hic.mp h) (by decide)
  rw [hfalse]
  decide

/-- Auxiliary: deduplication preserves membership. -/
theorem mem_dedupFirst [DecidableEq α] (a : α) (l : List α) :
    a ∈ dedupFirst l ↔ a ∈ l := by
  induction l with
  | nil => simp [dedupFirst]
  | cons x xs ih =>
    by_cases hax : a = x
    · simp [dedupFirst, hax]
    · simp [dedupFirst, List.mem_filter, hax, ih]

/-- Auxiliary: deduplication yields a duplicate-free list. -/
theorem nodup_dedupFirst [DecidableEq α] (l : List α) :
    (dedupFirst l).Nodup := by
  induction l with
  | nil => simp [dedupFirst]
  | cons x xs ih =>
    rw [dedupFirst]
    refine List.nodup_cons.mpr ⟨?_, ih.filter _⟩
    intro hx
    rw [List.mem_filter] at hx
    simp at hx

/-- Auxiliary: `round2 0 = 0`. -/
theorem round2_zero : round2 0 = 0 := by simp [round2]

/-- C6: `get_chapter_progress` yields pairwise-distinct
(chapter number, chapter name) entries; an entry for a pair exists if
and only if some active catalog question carries that chapter number and
name (so chapters with no active catalog questions are excluded and
chapters the user never attempted are included); an entry whose chapter
the user never attempted reports attempted 0, correct 0 and accuracy 0;
and an attempted entry reports accuracy = correct/attempted × 100
(rounded to two decimals for presentation). -/
theorem C6_chapter_progress (qdb : List Question) (adb : List UserActivity)
    (user_id : Nat) :
    ((get_chapter_progress qdb adb user_id).map
        (fun e => (e.chapter_number, e.chapter_name))).Nodup ∧
    (∀ ch name,
      (ch, name) ∈ (get_chapter_progress qdb adb user_id).map
          (fun e => (e.chapter_number, e.chapter_name)) ↔
        ∃ q, q ∈ qdb ∧ q.is_active = true ∧ q.chapter_number = ch ∧
          q.chapter_name = name) ∧
    (∀ e ∈ get_chapter_progress qdb adb user_id,
      e.attempted_questions = (chapterAttemptRows qdb adb user_id e.chapter_number).length ∧
      (e.attempted_questions = 0 →
        e.correct_answers = 0 ∧ e.accuracy_percentage = 0) ∧
      (0 < e.attempted_questions →
        e.accuracy_percentage
          = round2 (((e.correct_answers : ℚ) / e.attempted_questions) * 100))) := by
  have hpairs : (get_chapter_progress qdb adb user_id).map
      (fun e => (e.chapter_number, e.chapter_name))
      = dedupFirst ((qdb.filter (fun q => q.is_active)).map
          (fun q => (q.chapter_number, q.chapter_name))) := by
    unfold get_chapter_progress
    rw [List.map_map]
    exact List.map_id _
  refine ⟨?_, ?_, ?_⟩
  · rw [hpairs]; exact nodup_dedupFirst _
  · intro ch name
    rw [hpairs, mem_dedupFirst]
    simp only [List.mem_map, List.mem_filter, Prod.mk.injEq]
    constructor
    · rintro ⟨q, ⟨hq, ha⟩, h1, h2⟩
      exact ⟨q, hq, ha, h1, h2⟩
    · rintro ⟨q, hq, ha, h1, h2⟩
      exact ⟨q, ⟨hq, ha⟩, h1, h2⟩
  · intro e he
    obtain ⟨c, hc, rfl⟩ := List.mem_map.mp he
    refine ⟨rfl, ?_, ?_⟩
    · intro h0
      have hrows : chapterAttemptRows qdb adb user_id
          (chapterProgressEntry qdb adb user_id c).chapter_number = [] :=
        List.length_eq_zero.mp h0
      constructor
      · show ((chapterAttemptRows qdb adb user_id c.1).filter
            (fun p => p.1.is_correct)).length = 0
        rw [show chapterAttemptRows qdb adb user_id c.1 = [] from hrows]
        rfl
      · show round2 (if (chapterAttemptRows qdb adb user_id c.1).length > 0
              then _ else 0) = 0
        rw [show chapterAttemptRows qdb adb user_id c.1 = [] from hrows]
        simpa using round2_zero
    · intro hpos
      have hpos' : (chapterAttemptRows qdb adb user_id c.1).length > 0 := hpos
      show round2 (if (chapterAttemptRows qdb adb user_id c.1).length > 0
              then ((((chapterAttemptRows qdb adb user_id c.1).filter
                      (fun p => p.1.is_correct)).length : ℚ)
                    / (chapterAttemptRows qdb adb user_id c.1).length) * 100
              else 0) = _
      rw [if_pos hpos']
      rfl

/-- Active chapter-1 question for the C6 witness. -/
def c6Q1 : Question :=
  { id := 1, question_id := "PHY09-CH01-MCQ0001", question_text := "t1",
    options := [("a", "o1")], correct_answer := "a", explanations := none,
    hints := none, chapter_name := "Motion", chapter_number := 1,
    difficulty_level := "Easy", question_type := "multiple_choice",
    tags := none, is_active := true }

/-- Active chapter-2 question for the C6 witness (never attempted). -/
def c6Q2 : Question :=
  { id := 2, question_id := "PHY09-CH02-MCQ0001", question_text := "t2",
    options := [("a", "o1")], correct_answer := "a", explanations := none,
    hints := none, chapter_name := "Forces", chapter_number := 2,
    difficulty_level := "Easy", question_type := "multiple_choice",
    tags := none, is_active := true }

/-- One correct attempt by user 1 on the chapter-1 question. -/
def c6Act : UserActivity :=
  { id := 1, user_id := 1, question_id := 1, user_answer := "a",
    is_correct := true, time_spent := some 30, attempt_number := 1,
    completed_at := 100 }

/-- C6 witness: with one attempted chapter and one untouched chapter,
the untouched chapter still has an entry, zero-filled with accuracy 0,
and the attempted chapter reports the accuracy formula. -/
theorem C6_chapter_progress_witness :
    ((2, "Forces") ∈ (get_chapter_progress [c6Q1, c6Q2] [c6Act] 1).map
        (fun e => (e.chapter_number, e.chapter_name))) ∧
    (chapterProgressEntry [c6Q1, c6Q2] [c6Act] 1 (2, "Forces")).correct_answers = 0 ∧
    (chapterProgressEntry [c6Q1, c6Q2] [c6Act] 1 (2, "Forces")).accuracy_percentage = 0 ∧
    (chapterProgressEntry [c6Q1, c6Q2] [c6Act] 1 (1, "Motion")).accuracy_percentage
      = round2 (((chapterProgressEntry [c6Q1, c6Q2] [c6Act] 1 (1, "Motion")).correct_answers : ℚ)
          / (chapterProgressEntry [c6Q1, c6Q2] [c6Act] 1 (1, "Motion")).attempted_questions * 100) := by
  have h := C6_chapter_progress [c6Q1, c6Q2] [c6Act] 1
  have he2 : chapterProgressEntry [c6Q1, c6Q2] [c6Act] 1 (2, "Forces")
      ∈ get_chapter_progress [c6Q1, c6Q2] [c6Act] 1 := by
    unfold get_chapter_progress
    exact List.mem_map_of_mem _ (by decide)
  have he1 : chapterProgressEntry [c6Q1, c6Q2] [c6Act] 1 (1, "Motion")
      ∈ get_chapter_progress [c6Q1, c6Q2] [c6Act] 1 := by
    unfold get_chapter_progress
    exact List.mem_map_of_mem _ (by decide)
  have hz := (h.2.2 _ he2).2.1 (by decide)
  have ha := (h.2.2 _ he1).2.2 (by decide)
  exact ⟨(h.2.1 2 "Forces").mpr ⟨c6Q2, by decide, rfl, rfl, rfl⟩, hz.1, hz.2, ha⟩

/-- Auxiliary: a conjunctive filter is empty whenever the filter on the
first conjunct alone is empty. -/
theorem filter_and_eq_nil {l : List α} (p q : α → Bool)
    (h : l.filter p = []) : l.filter (fun a => p a && q a) = [] := by
  rw [List.filter_eq_nil_iff] at h ⊢
  intro a ha
  simp only [Bool.and_eq_true, not_and]
  intro hp
  exact absurd hp (h a ha)

/-- C7: every division-guarded statistic evaluates to 0 when ITS OWN
denominator is 0, whatever other activity exists: today's accuracy is 0
whenever the user has no activity today (prior-day history allowed);
a chapter entry's accuracy is 0 whenever that chapter's attempted count
is 0 (activity in other chapters allowed); the detailed insights are all
0 whenever the analysis window holds no rows (older activity allowed);
the average session length is 0 whenever the window has no distinct
active day; the consistency score is 0 for a zero-length window; and —
in particular — a user with no recorded activity at all has overall
accuracy 0, average time 0 and all-zero detailed insights. -/
theorem C7_zero_denominator_stats (qdb : List Question) (adb : List UserActivity)
    (user_id : Nat) :
    ((adb.filter (fun a => a.user_id == user_id)).length = 0 →
      (get_user_stats qdb adb user_id).accuracy_percentage = 0 ∧
      (get_user_stats qdb adb user_id).average_time_per_question = 0 ∧
      (∀ days now, get_detailed_analytics_part qdb adb user_id days now
        = { total_practice_time := 0, average_session_length := 0,
            consistency_score := 0 })) ∧
    (∀ today_start,
      (adb.filter (fun a => a.user_id == user_id
          && today_start ≤ a.completed_at)).length = 0 →
      (get_real_time_stats qdb adb user_id today_start).today.accuracy = 0) ∧
    (∀ e ∈ get_chapter_progress qdb adb user_id,
      e.attempted_questions = 0 → e.accuracy_percentage = 0) ∧
    (∀ days now, detailedActivityRows qdb adb user_id days now = [] →
      get_detailed_analytics_part qdb adb user_id days now
        = { total_practice_time := 0, average_session_length := 0,
            consistency_score := 0 }) ∧
    (∀ days now, detailedUniqueDates qdb adb user_id days now = [] →
      (get_detailed_analytics_part qdb adb user_id days now).average_session_length
        = 0) ∧
    (∀ now, (get_detailed_analytics_part qdb adb user_id 0 now).consistency_score
        = 0) := by
  have hwin : ∀ days now, detailedActivityRows qdb adb user_id days now = [] →
      get_detailed_analytics_part qdb adb user_id days now
        = { total_practice_time := 0, average_session_length := 0,
            consistency_score := 0 } := by
    intro days now hrows
    unfold get_detailed_analytics_part
    rw [hrows]
    rfl
  refine ⟨?_, ?_, ?_, hwin, ?_, ?_⟩
  · intro h
    have hnil : adb.filter (fun a => a.user_id == user_id) = [] :=
      List.length_eq_zero.mp h
    refine ⟨?_, ?_, ?_⟩
    · unfold get_user_stats
      rw [hnil]
      simp [round2_zero]
    · unfold get_user_stats
      rw [hnil]
      simp [round2_zero]
    · intro days now
      refine hwin days now ?_
      unfold detailedActivityRows
      rw [filter_and_eq_nil _ _ hnil]
      rfl
  · intro today_start h
    have hnil : adb.filter (fun a => a.user_id == user_id
        && today_start ≤ a.completed_at) = [] := List.length_eq_zero.mp h
    unfold get_real_time_stats
    rw [hnil]
    simp [round1]
  · intro e he h0
    unfold get_chapter_progress at he
    obtain ⟨c, hc, rfl⟩ := List.mem_map.mp he
    have hrows : chapterAttemptRows qdb adb user_id c.1 = [] :=
      List.length_eq_zero.mp h0
    show round2 (if (chapterAttemptRows qdb adb user_id c.1).length > 0
        then _ else 0) = 0
    rw [hrows]
    simp [round2_zero]
  · intro days now h
    cases hrows : detailedActivityRows qdb adb user_id days now with
    | nil =>
      rw [hwin days now hrows]
    | cons r rs =>
      exfalso
      unfold detailedUniqueDates at h
      rw [hrows] at h
      simp [dedupFirst] at h
  · intro now
    unfold get_detailed_analytics_part
    by_cases hE : (detailedActivityRows qdb adb user_id 0 now).isEmpty = true
    · rw [if_pos hE]
    · rw [if_neg hE]
      show round1 (if (0:Nat) > 0 then _ else 0) = 0
      rw [if_neg (lt_irrefl 0)]
      simp [round1]

/-- Activity of a DIFFERENT user (user 2) for the C7 witness: user 1
has no recorded activity in this table. -/
def c7Act : UserActivity :=
  { id := 1, user_id := 2, question_id := 1, user_answer := "a",
    is_correct := true, time_spent := some 30, attempt_number := 1,
    completed_at := 100 }

/-- Active chapter-1 question for the C7 witness. -/
def c7Q1 : Question :=
  { id := 1, question_id := "PHY09-CH01-MCQ0001", question_text := "t1",
    options := [("a", "o1")], correct_answer := "a", explanations := none,
    hints := none, chapter_name := "Motion", chapter_number := 1,
    difficulty_level := "Easy", question_type := "multiple_choice",
    tags := none, is_active := true }

/-- Active chapter-2 question for the C7 witness (never attempted). -/
def c7Q2 : Question :=
  { id := 2, question_id := "PHY09-CH02-MCQ0001", question_text := "t2",
    options := [("a", "o1")], correct_answer := "a", explanations := none,
    hints := none, chapter_name := "Forces", chapter_number := 2,
    difficulty_level := "Easy", question_type := "multiple_choice",
    tags := none, is_active := true }

/-- A prior-day attempt by user 1 (timestamp 50, before today start 100
and outside late analysis windows). -/
def c7Act2 : UserActivity :=
  { id := 1, user_id := 1, question_id := 1, user_answer := "a",
    is_correct := true, time_spent := some 30, attempt_number := 1,
    completed_at := 50 }

/-- C7 witness: a user with only prior-day history has today accuracy 0;
an untouched chapter has accuracy 0 despite activity elsewhere; a window
holding no rows yields average session length 0 despite older activity;
a zero-length window yields consistency 0 while its rows are non-empty;
and a user with no activity at all has overall accuracy 0. -/
theorem C7_zero_denominator_stats_witness :
    (get_user_stats [] [c7Act] 1).accuracy_percentage = 0 ∧
    (get_real_time_stats [c7Q1, c7Q2] [c7Act2] 1 100).today.accuracy = 0 ∧
    (chapterProgressEntry [c7Q1, c7Q2] [c7Act2] 1 (2, "Forces")).accuracy_percentage = 0 ∧
    (get_detailed_analytics_part [c7Q1, c7Q2] [c7Act2] 1 1 1000000).average_session_length = 0 ∧
    (get_detailed_analytics_part [c7Q1, c7Q2] [c7Act2] 1 0 50).consistency_score = 0 := by
  have hA := C7_zero_denominator_stats [] [c7Act] 1
  have hB := C7_zero_denominator_stats [c7Q1, c7Q2] [c7Act2] 1
  have he : chapterProgressEntry [c7Q1, c7Q2] [c7Act2] 1 (2, "Forces")
      ∈ get_chapter_progress [c7Q1, c7Q2] [c7Act2] 1 := by
    unfold get_chapter_progress
    exact List.mem_map_of_mem _ (by decide)
  refine ⟨(hA.1 (by decide)).1, hB.2.1 100 (by decide),
    hB.2.2.1 _ he (by decide), ?_, hB.2.2.2.2.2 50⟩
  rw [hB.2.2.2.1 1 1000000 (by decide)]

/-- Auxiliary: the filtering predicate reads only public fields, so two
catalogs equal up to `publicEq` filter identically. -/
theorem publicEq_matchesFilters {q q' : Question} (h : publicEq q q')
    (filters : QuestionFilter) :
    matchesFilters filters q = matchesFilters filters q' := by
  obtain ⟨h1, h2, h3, h4, h5, h6, h7, h8, h9, h10, h11⟩ := h
  unfold matchesFilters chapterDim difficultyDim questionTypeDim tagsDim
    tagsColumnContains
  simp only [h7, h8, h9, h10, h11]

/-- Auxiliary: the practice view reads only public fields. -/
theorem publicEq_toPractice {q q' : Question} (h : publicEq q q') :
    toPractice q = toPractice q' := by
  obtain ⟨h1, h2, h3, h4, h5, h6, h7, h8, h9, h10, h11⟩ := h
  unfold toPractice
  rw [h1, h2, h3, h4, h5, h6, h7, h8, h10]

/-- Auxiliary: filtering by a predicate that respects `R` preserves the
pointwise relation of two lists. -/
theorem forall₂_filter_of_eq {R : α → α → Prop} (p : α → Bool)
    (hp : ∀ a b, R a b → p a = p b) :
    ∀ {l l' : List α}, List.Forall₂ R l l' →
      List.Forall₂ R (l.filter p) (l'.filter p) := by
  intro l l' h
  induction h with
  | nil => exact List.Forall₂.nil
  | @cons a b l1 l2 hab htl ih =>
    simp only [List.filter_cons]
    rw [hp a b hab]
    cases hpb : p b
    · simpa using ih
    · simpa using List.Forall₂.cons hab ih

/-- Auxiliary: `publicEq`-related lists have equal practice views. -/
theorem forall₂_map_toPractice :
    ∀ {l l' : List Question}, List.Forall₂ publicEq l l' →
      l.map toPractice = l'.map toPractice := by
  intro l l' h
  induction h with
  | nil => rfl
  | cons hab htl ih => simp only [List.map_cons, publicEq_toPractice hab, ih]

/-- Auxiliary: indexing two `publicEq`-related lists gives equal
practice views. -/
theorem forall₂_get?_map_toPractice {l l' : List Question}
    (h : List.Forall₂ publicEq l l') :
    ∀ i : Nat, (l.get? i).map toPractice = (l'.get? i).map toPractice := by
  induction h with
  | nil => intro i; rfl
  | cons hab htl ih =>
    intro i
    cases i with
    | zero => simp [publicEq_toPractice hab]
    | succ i => simpa using ih i

/-- Auxiliary: the random-selection step maps `publicEq`-related
candidate lists to the same practice response. -/
theorem randomPractice_eq_of_forall₂ {l l' : List Question}
    (h : List.Forall₂ publicEq l l') (choice : Nat) :
    (if l.isEmpty then none else l.get? (choice % l.length)).map toPractice
      = (if l'.isEmpty then none else l'.get? (choice % l'.length)).map toPractice := by
  have hlen := h.length_eq
  have hE : l.isEmpty = l'.isEmpty := by
    cases hb : l'.isEmpty
    · cases hb2 : l.isEmpty
      · rfl
      · rw [List.isEmpty_iff_length_eq_zero] at hb2
        rw [hb2] at hlen
        have := List.isEmpty_iff_length_eq_zero.mpr hlen.symm
        rw [this] at hb
        exact hb
    · rw [List.isEmpty_iff_length_eq_zero] at hb
      rw [← hlen] at hb
      exact List.isEmpty_iff_length_eq_zero.mpr hb
  rw [hE, hlen]
  cases hb : l'.isEmpty
  · simpa using forall₂_get?_map_toPractice h (choice % l'.length)
  · rfl

/-- C9: the practice responses expose only the public question fields.
The response schema `QuestionPractice` contains exactly id, external
question id, text, options, hints, chapter name and number, difficulty
level and tags; and two catalogs that differ only in `correct_answer`
or `explanations` (`publicEq` row by row) produce identical responses
from the filter endpoint and from the random-practice endpoint, for
every filter, user, exclusion flag, activity table and random draw. -/
theorem C9_no_secret_exposure (db db' : List Question)
    (h : List.Forall₂ publicEq db db') (filters : QuestionFilter) :
    filter_questions db filters = filter_questions db' filters ∧
    ∀ current_user_id exclude_attempted activityPairs choice,
      get_practice_question db filters current_user_id exclude_attempted
          activityPairs choice
        = get_practice_question db' filters current_user_id exclude_attempted
            activityPairs choice := by
  have hf : List.Forall₂ publicEq
      (db.filter (fun q => matchesFilters filters q))
      (db'.filter (fun q => matchesFilters filters q)) :=
    forall₂_filter_of_eq (fun q => matchesFilters filters q)
      (fun a b hab => publicEq_matchesFilters hab filters) h
  have hlen : (db.filter (fun q => matchesFilters filters q)).length
      = (db'.filter (fun q => matchesFilters filters q)).length := hf.length_eq
  constructor
  · have hq := forall₂_map_toPractice
      (List.forall₂_take filters.limit (List.forall₂_drop filters.offset hf))
    unfold filter_questions get_questions_filtered filteredQuery
    simp only [hq, hlen]
  · intro uid ex acts choice
    unfold get_practice_question get_random_question
    cases ex
    · exact randomPractice_eq_of_forall₂ hf choice
    · exact randomPractice_eq_of_forall₂
        (forall₂_filter_of_eq
          (fun q => !(attemptedBy acts uid).contains q.id)
          (fun a b hab => by
            show (!(attemptedBy acts uid).contains a.id)
              = (!(attemptedBy acts uid).contains b.id)
            rw [hab.1]) hf) choice

/-- Catalog question for the C9 witness. -/
def c9QA : Question :=
  { id := 1, question_id := "PHY09-CH01-MCQ0001", question_text := "t",
    options := [("a", "o1"), ("b", "o2")], correct_answer := "a",
    explanations := some [("a", "because")], hints := some ["h"],
    chapter_name := "Motion", chapter_number := 1, difficulty_level := "Easy",
    question_type := "multiple_choice", tags := some ["x"], is_active := true }

/-- Same question with a different correct answer and no explanations. -/
def c9QB : Question :=
  { c9QA with correct_answer := "b", explanations := none }

/-- Default filter (all dimensions off, limit 10, offset 0). -/
def c9Filters : QuestionFilter := {}

/-- C9 witness: the two one-question catalogs differing only in
`correct_answer` and `explanations` give identical filter and practice
responses. -/
theorem C9_no_secret_exposure_witness :
    filter_questions [c9QA] c9Filters = filter_questions [c9QB] c9Filters ∧
    get_practice_question [c9QA] c9Filters 1 false [] 0
      = get_practice_question [c9QB] c9Filters 1 false [] 0 := by
  have h := C9_no_secret_exposure [c9QA] [c9QB]
    (List.Forall₂.cons ⟨rfl, rfl, rfl, rfl, rfl, rfl, rfl, rfl, rfl, rfl, rfl⟩
      List.Forall₂.nil) c9Filters
  exact ⟨h.1, h.2 1 false [] 0⟩

/-- C10: `remove_mark` reports success if and only if some stored mark
has the requested id AND is owned by the calling user; on failure the
marks table is unchanged; the result is always a sublist of the stored
marks (nothing else is deleted); marks of other users always survive;
on success exactly one mark is removed; and the endpoint returns 404
exactly when no owned mark with that id exists. -/
theorem C10_remove_mark_ownership (marks : List Mark) (user_id mark_id : Nat) :
    ((remove_mark marks user_id mark_id).1 = true ↔
      ∃ m, m ∈ marks ∧ m.id = mark_id ∧ m.user_id = user_id) ∧
    ((remove_mark marks user_id mark_id).1 = false →
      (remove_mark marks user_id mark_id).2 = marks) ∧
    (remove_mark marks user_id mark_id).2.Sublist marks ∧
    (∀ m ∈ marks, m.user_id ≠ user_id →
      m ∈ (remove_mark marks user_id mark_id).2) ∧
    ((remove_mark marks user_id mark_id).1 = true →
      (remove_mark marks user_id mark_id).2.length + 1 = marks.length) ∧
    ((remove_mark_endpoint marks user_id mark_id).1
        = RemoveMarkResult.httpError 404 "Mark not found" ↔
      ¬ ∃ m, m ∈ marks ∧ m.id = mark_id ∧ m.user_id = user_id) := by
  cases hfind : marks.find? (fun m => m.id == mark_id && m.user_id == user_id) with
  | some m0 =>
    have hmem := List.mem_of_find?_eq_some hfind
    have hp := List.find?_some hfind
    have hp' := hp
    simp only [Bool.and_eq_true, beq_iff_eq] at hp'
    have hex : ∃ m, m ∈ marks ∧ m.id = mark_id ∧ m.user_id = user_id :=
      ⟨m0, hmem, hp'.1, hp'.2⟩
    have h1 : (remove_mark marks user_id mark_id).1 = true := by
      unfold remove_mark
      rw [hfind]
    have h2 : (remove_mark marks user_id mark_id).2
        = marks.eraseP (fun m => m.id == mark_id && m.user_id == user_id) := by
      unfold remove_mark
      rw [hfind]
    refine ⟨⟨fun _ => hex, fun _ => h1⟩, ?_, ?_, ?_, ?_, ?_⟩
    · intro hcontra
      rw [h1] at hcontra
      exact Bool.noConfusion hcontra
    · rw [h2]
      exact List.eraseP_sublist _
    · intro m hm hne
      rw [h2]
      refine (List.mem_eraseP_of_neg ?_).mpr hm
      intro hq
      simp only [Bool.and_eq_true, beq_iff_eq] at hq
      exact hne hq.2
    · intro _
      rw [h2, List.length_eraseP_of_mem hmem hp]
      have := List.length_pos_of_mem hmem
      omega
    · constructor
      · intro hcontra
        simp only [remove_mark_endpoint, h1, if_pos] at hcontra
        exact RemoveMarkResult.noConfusion hcontra
      · intro hcontra
        exact absurd hex hcontra
  | none =>
    have hnone := List.find?_eq_none.mp hfind
    have h1 : (remove_mark marks user_id mark_id).1 = false := by
      unfold remove_mark
      rw [hfind]
    have h2 : (remove_mark marks user_id mark_id).2 = marks := by
      unfold remove_mark
      rw [hfind]
    have hnex : ¬ ∃ m, m ∈ marks ∧ m.id = mark_id ∧ m.user_id = user_id := by
      rintro ⟨m, hm, hid, huid⟩
      exact hnone m hm (by simp [hid, huid])
    refine ⟨?_, fun _ => h2, ?_, ?_, ?_, ?_⟩
    · constructor
      · intro hcontra
        rw [h1] at hcontra
        exact Bool.noConfusion hcontra
      · intro hex
        exact absurd hex hnex
    · rw [h2]
    · intro m hm _
      rw [h2]
      exact hm
    · intro hcontra
      rw [h1] at hcontra
      exact Bool.noConfusion hcontra
    · constructor
      · intro _
        exact hnex
      · intro _
        simp only [remove_mark_endpoint, h1]
        rfl

/-- Mark owned by user 1 for the C10 witness. -/
def c10M1 : Mark :=
  { id := 1, user_id := 1, question_id := 5, mark_type := "review",
    notes := none, created_at := 10 }

/-- Mark owned by user 2 for the C10 witness. -/
def c10M2 : Mark :=
  { id := 2, user_id := 2, question_id := 6, mark_type := "review",
    notes := some "n", created_at := 11 }

/-- C10 witness: user 1 cannot delete the mark of user 2 (not-found,
table unchanged, the foreign mark survives), while deleting an owned
mark succeeds and removes exactly one row. -/
theorem C10_remove_mark_ownership_witness :
    (remove_mark [c10M1, c10M2] 1 2).1 = false ∧
    (remove_mark [c10M1, c10M2] 1 2).2 = [c10M1, c10M2] ∧
    c10M2 ∈ (remove_mark [c10M1, c10M2] 1 2).2 ∧
    (remove_mark [c10M1, c10M2] 1 1).1 = true ∧
    (remove_mark [c10M1, c10M2] 1 1).2.length + 1 = 2 := by
  have h12 := C10_remove_mark_ownership [c10M1, c10M2] 1 2
  have h11 := C10_remove_mark_ownership [c10M1, c10M2] 1 1
  have hfalse : (remove_mark [c10M1, c10M2] 1 2).1 = false := by
    cases hb : (remove_mark [c10M1, c10M2] 1 2).1
    · rfl
    · exact absurd (h12.1.mp hb) (by decide)
  have htrue : (remove_mark [c10M1, c10M2] 1 1).1 = true :=
    h11.1.mpr ⟨c10M1, by decide, rfl, rfl⟩
  exact ⟨hfalse, h12.2.1 hfalse,
    h12.2.2.2.1 c10M2 (by decide) (by decide),
    htrue, h11.2.2.2.2.1 htrue⟩
